import Mathlib

/-!
Verification of the recaptcha-verify response-classification logic

Shallow embedding of the response-classification code of the
recaptcha-verify crate (src/lib.rs, src/v3.rs, src/ent.rs).

The HTTP transport is modelled as an external collaborator that either
fails (a transport error, carried as an opaque string mirroring
reqwest::Error) or delivers an HTTP status code together with a raw
response body.  A raw body is either a well-formed JSON document,
modelled by the inductive type Json below, or text that is not JSON at
all (constructor Body.malformed, carrying the raw text).  JSON numbers
are modelled as integers: no claim under verification depends on a
fractional numeric value (the only float field, riskAnalysis.score, is
never consumed by the classification logic).

serde_json deserialization of the derived structs is embedded as
explicit decoder functions Json → Option/Except: a struct decodes from
a JSON object; a known field appearing twice is an error; unknown
fields are ignored (or captured by a flatten map where the source has
one); an Option field decodes null or absence as none; a unit-variant
enum decodes from its renamed variant string and rejects every other
string (serde derive semantics, unknown variant error).
-/

deriving instance DecidableEq for Except

namespace Recaptcha

/-- JSON document model.  Numbers are modelled as integers (see module
comment). -/
inductive Json where
  | null : Json
  | bool (b : Bool) : Json
  | num (n : Int) : Json
  | str (s : String) : Json
  | arr (xs : List Json) : Json
  | obj (fields : List (String × Json)) : Json

/-- A raw HTTP response body: either a well-formed JSON document or
text that does not parse as JSON. -/
inductive Body where
  | json (j : Json) : Body
  | malformed (raw : String) : Body

/-- A completed HTTP exchange: reqwest exposes a status code and a
body; the classification code under study reads only the body. -/
structure HttpResponse where
  status : Nat
  body : Body

/-- Opaque transport failure (reqwest::Error), carried as a string. -/
abbrev TransportError := String

/-- Number of occurrences of key k among the fields of a JSON object. -/
def keyCount (fs : List (String × Json)) (k : String) : Nat :=
  fs.countP (fun p => p.1 == k)

/-- Decode a JSON array of strings (serde Vec of String). -/
def decodeStringList : List Json → Option (List String) :=
  List.mapM fun v =>
    match v with
    | .str s => some s
    | _ => none

/-- Legacy error enum.  src/lib.rs and src/v3.rs each declare a
textually identical `pub enum RecaptchaError`; it is embedded once and
shared by both legacy flows. -/
inductive RecaptchaError where
  | Unknown (code : Option String) : RecaptchaError
  | HttpError (e : TransportError) : RecaptchaError
  | MissingInputSecret : RecaptchaError
  | InvalidInputSecret : RecaptchaError
  | MissingInputResponse : RecaptchaError
  | InvalidInputResponse : RecaptchaError
  | BadRequest : RecaptchaError
  | TimeoutOrDuplicate : RecaptchaError
deriving DecidableEq, Repr

namespace V3

/-- The Ok payload of `impl TryFrom<String> for RecaptchaError` in
src/v3.rs (the impl never returns Err): the closed legacy code table
with the `Unknown(Some(value))` escape. -/
def recaptchaErrorFromCode (value : String) : RecaptchaError :=
  if value = "missing-input-secret" then .MissingInputSecret
  else if value = "invalid-input-secret" then .InvalidInputSecret
  else if value = "missing-input-response" then .MissingInputResponse
  else if value = "invalid-input-response" then .InvalidInputResponse
  else if value = "bad-request" then .BadRequest
  else if value = "timeout-or-duplicate" then .TimeoutOrDuplicate
  else .Unknown (some value)

/-- Embeds `impl TryFrom<String> for RecaptchaError` in src/v3.rs: wraps the
whole match in Ok. -/
def recaptchaErrorTryFrom (value : String) : Except RecaptchaError RecaptchaError :=
  .ok (recaptchaErrorFromCode value)

/-- Embeds `struct RecaptchaResult` of src/v3.rs: only `success` and the
renamed `error-codes` field are deserialized (the other response keys
are commented out there, hence ignored as unknown fields). -/
structure RecaptchaResult where
  success : Bool
  error_codes : Option (List String)
deriving DecidableEq, Repr

/-- serde_json deserialization of src/v3.rs `RecaptchaResult`:
`success: bool` required, `error-codes: Option<Vec<String>>` absent or
null decodes to none; duplicate known fields are an error; unknown
fields are ignored. -/
def decodeRecaptchaResult : Json → Option RecaptchaResult
  | .obj fs =>
    if keyCount fs "success" ≤ 1 ∧ keyCount fs "error-codes" ≤ 1 then
      match fs.lookup "success" with
      | some (.bool s) =>
        match fs.lookup "error-codes" with
        | none => some ⟨s, none⟩
        | some .null => some ⟨s, none⟩
        | some (.arr xs) => (decodeStringList xs).map fun l => ⟨s, some l⟩
        | some _ => none
      | _ => none
    else none
  | _ => none

/-- Embeds `response.json::<RecaptchaResult>()`: parse the raw body as JSON,
then deserialize. -/
def decodeBody : Body → Option RecaptchaResult
  | .json j => decodeRecaptchaResult j
  | .malformed _ => none

/-- Embeds `verify_v3` of src/v3.rs, from the transport result on: transport
failure maps to HttpError; a decoded body with success is Ok; success
false with a nonempty error-codes list maps the first code through
TryFrom (whose Err would also propagate as Err); every other path
falls through to Err(Unknown(None)). -/
def verify_v3 (sendResult : Except TransportError HttpResponse) :
    Except RecaptchaError Unit :=
  match sendResult with
  | .error e => .error (.HttpError e)
  | .ok response =>
    match decodeBody response.body with
    | some result =>
      if result.success then .ok ()
      else
        match result.error_codes with
        | some errs =>
          match errs.head? with
          | some firstCode =>
            match recaptchaErrorTryFrom firstCode with
            | .ok e => .error e
            | .error e => .error e
          | none => .error (.Unknown none)
        | none => .error (.Unknown none)
    | none => .error (.Unknown none)

/-- Embeds `verify` of src/v3.rs: deprecated alias delegating to verify_v3. -/
def verify (sendResult : Except TransportError HttpResponse) :
    Except RecaptchaError Unit :=
  verify_v3 sendResult

end V3

namespace Lib

/-- The Ok payload of `impl TryFrom<String> for RecaptchaError` in
src/lib.rs (`s => Unknown(Some(s.to_string()))`, cloning the matched
string, which equals the original). -/
def recaptchaErrorFromCode (value : String) : RecaptchaError :=
  if value = "missing-input-secret" then .MissingInputSecret
  else if value = "invalid-input-secret" then .InvalidInputSecret
  else if value = "missing-input-response" then .MissingInputResponse
  else if value = "invalid-input-response" then .InvalidInputResponse
  else if value = "bad-request" then .BadRequest
  else if value = "timeout-or-duplicate" then .TimeoutOrDuplicate
  else .Unknown (some value)

/-- Embeds `impl TryFrom<String> for RecaptchaError` in src/lib.rs. -/
def recaptchaErrorTryFrom (value : String) : Except RecaptchaError RecaptchaError :=
  .ok (recaptchaErrorFromCode value)

/-- Embeds `struct RecaptchaResult` of src/lib.rs: unlike the src/v3.rs
revision, `challenge_ts`, `hostname` and `apk_package_name` are live
Option fields of the struct and take part in deserialization. -/
structure RecaptchaResult where
  success : Bool
  challenge_ts : Option String
  hostname : Option String
  apk_package_name : Option String
  error_codes : Option (List String)
deriving DecidableEq, Repr

/-- serde deserialization of an `Option<String>` struct field: absent
or null is none, a string is some, any other value is a type error. -/
def decodeOptStringField (fs : List (String × Json)) (k : String) :
    Option (Option String) :=
  if keyCount fs k ≤ 1 then
    match fs.lookup k with
    | none => some none
    | some .null => some none
    | some (.str s) => some (some s)
    | some _ => none
  else none

/-- serde_json deserialization of src/lib.rs `RecaptchaResult`: like
the v3 revision plus the three optional string fields. -/
def decodeRecaptchaResult (j : Json) : Option RecaptchaResult :=
  match j with
  | .obj fs =>
    if keyCount fs "success" ≤ 1 ∧ keyCount fs "error-codes" ≤ 1 then
      match fs.lookup "success" with
      | some (.bool s) => do
        let ct ← decodeOptStringField fs "challenge_ts"
        let hn ← decodeOptStringField fs "hostname"
        let apk ← decodeOptStringField fs "apk_package_name"
        match fs.lookup "error-codes" with
        | none => some ⟨s, ct, hn, apk, none⟩
        | some .null => some ⟨s, ct, hn, apk, none⟩
        | some (.arr xs) => (decodeStringList xs).map fun l => ⟨s, ct, hn, apk, some l⟩
        | some _ => none
      | _ => none
    else none
  | _ => none

/-- Embeds `response.json::<RecaptchaResult>()` for the src/lib.rs struct. -/
def decodeBody : Body → Option RecaptchaResult
  | .json j => decodeRecaptchaResult j
  | .malformed _ => none

/-- Embeds `verify` of src/lib.rs (the older revision of the legacy flow;
`errs.get(0)` there is the same first-element access as
`errs.first()` in src/v3.rs). -/
def verify (sendResult : Except TransportError HttpResponse) :
    Except RecaptchaError Unit :=
  match sendResult with
  | .error e => .error (.HttpError e)
  | .ok response =>
    match decodeBody response.body with
    | some result =>
      if result.success then .ok ()
      else
        match result.error_codes with
        | some errs =>
          match errs.head? with
          | some firstCode =>
            match recaptchaErrorTryFrom firstCode with
            | .ok e => .error e
            | .error e => .error e
          | none => .error (.Unknown none)
        | none => .error (.Unknown none)
    | none => .error (.Unknown none)

end Lib

namespace Ent

/-- Embeds `enum RecaptchaUserAction` of src/ent.rs. -/
inductive RecaptchaUserAction where
  | Signup : RecaptchaUserAction
  | Login : RecaptchaUserAction
  | PasswordReset : RecaptchaUserAction
  | GetPrice : RecaptchaUserAction
  | CartAdd : RecaptchaUserAction
  | CartView : RecaptchaUserAction
  | PaymentAdd : RecaptchaUserAction
  | Checkout : RecaptchaUserAction
  | TransactionConfirmed : RecaptchaUserAction
  | PlaySong : RecaptchaUserAction
deriving DecidableEq, Repr

/-- Embeds `impl Display for RecaptchaUserAction` of src/ent.rs. -/
def userActionToString : RecaptchaUserAction → String
  | .Signup => "signup"
  | .Login => "login"
  | .PasswordReset => "password_reset"
  | .GetPrice => "get_price"
  | .CartAdd => "cart_add"
  | .CartView => "cart_view"
  | .PaymentAdd => "payment_add"
  | .Checkout => "checkout"
  | .TransactionConfirmed => "transaction_confirmed"
  | .PlaySong => "play_song"

/-- The wire name of each RecaptchaUserAction variant under the serde
attribute rename_all = snake_case on the derived Deserialize. -/
def userActionSerdeName : RecaptchaUserAction → String
  | .Signup => "signup"
  | .Login => "login"
  | .PasswordReset => "password_reset"
  | .GetPrice => "get_price"
  | .CartAdd => "cart_add"
  | .CartView => "cart_view"
  | .PaymentAdd => "payment_add"
  | .Checkout => "checkout"
  | .TransactionConfirmed => "transaction_confirmed"
  | .PlaySong => "play_song"

/-- serde derived matching of a variant string for RecaptchaUserAction
(none on an unrecognized string). -/
def userActionFromWire (s : String) : Option RecaptchaUserAction :=
  if s = "signup" then some .Signup
  else if s = "login" then some .Login
  else if s = "password_reset" then some .PasswordReset
  else if s = "get_price" then some .GetPrice
  else if s = "cart_add" then some .CartAdd
  else if s = "cart_view" then some .CartView
  else if s = "payment_add" then some .PaymentAdd
  else if s = "checkout" then some .Checkout
  else if s = "transaction_confirmed" then some .TransactionConfirmed
  else if s = "play_song" then some .PlaySong
  else none

/-- Embeds `enum RecaptchaInvalidReason` of src/ent.rs. -/
inductive RecaptchaInvalidReason where
  | Automation : RecaptchaInvalidReason
  | UnexpectedEnvironment : RecaptchaInvalidReason
  | TooMuchTraffic : RecaptchaInvalidReason
  | UnexpectedUsagePatterns : RecaptchaInvalidReason
  | LowConfidenceScore : RecaptchaInvalidReason
  | Malformed : RecaptchaInvalidReason
deriving DecidableEq, Repr

/-- Embeds `impl Display for RecaptchaInvalidReason` of src/ent.rs. -/
def invalidReasonToString : RecaptchaInvalidReason → String
  | .Automation => "AUTOMATION"
  | .UnexpectedEnvironment => "UNEXPECTED_ENVIRONMENT"
  | .TooMuchTraffic => "TOO_MUCH_TRAFFIC"
  | .UnexpectedUsagePatterns => "UNEXPECTED_USAGE_PATTERNS"
  | .LowConfidenceScore => "LOW_CONFIDENCE_SCORE"
  | .Malformed => "MALFORMED"

/-- The wire name of each RecaptchaInvalidReason variant under the
serde attribute rename_all = SCREAMING_SNAKE_CASE on the derived
Deserialize. -/
def invalidReasonSerdeName : RecaptchaInvalidReason → String
  | .Automation => "AUTOMATION"
  | .UnexpectedEnvironment => "UNEXPECTED_ENVIRONMENT"
  | .TooMuchTraffic => "TOO_MUCH_TRAFFIC"
  | .UnexpectedUsagePatterns => "UNEXPECTED_USAGE_PATTERNS"
  | .LowConfidenceScore => "LOW_CONFIDENCE_SCORE"
  | .Malformed => "MALFORMED"

/-- serde derived matching of a variant string for
RecaptchaInvalidReason (none on an unrecognized string; the derived
Deserialize rejects unknown variants, it does not fall back). -/
def invalidReasonFromWire (s : String) : Option RecaptchaInvalidReason :=
  if s = "AUTOMATION" then some .Automation
  else if s = "UNEXPECTED_ENVIRONMENT" then some .UnexpectedEnvironment
  else if s = "TOO_MUCH_TRAFFIC" then some .TooMuchTraffic
  else if s = "UNEXPECTED_USAGE_PATTERNS" then some .UnexpectedUsagePatterns
  else if s = "LOW_CONFIDENCE_SCORE" then some .LowConfidenceScore
  else if s = "MALFORMED" then some .Malformed
  else none

/-- Embeds `struct RecaptchaEntApiError` of src/ent.rs. -/
structure RecaptchaEntApiError where
  code : Nat
  message : String
  status : String
deriving DecidableEq, Repr

/-- Embeds `struct RecaptchaEntApiResponse` of src/ent.rs. -/
structure RecaptchaEntApiResponse where
  error : RecaptchaEntApiError
deriving DecidableEq, Repr

/-- A serde_json decode failure (serde_json::Error), abstracted to the
kind of failure it describes.  A serde error message never contains
the input document; it names the failure (missing or duplicate field,
type mismatch, unknown variant, bare text that is not JSON) plus a
position. -/
inductive DecodeErr where
  | parseFailure : DecodeErr
  | missingField (name : String) : DecodeErr
  | duplicateField (name : String) : DecodeErr
  | invalidType (expected : String) : DecodeErr
  | unknownVariant (got : String) : DecodeErr
deriving DecidableEq, Repr

/-- Embeds `enum RecaptchaEntError` of src/ent.rs (reqwest::Error and
serde_json::Error payloads abstracted as above). -/
inductive RecaptchaEntError where
  | InvalidUserAction (s : String) : RecaptchaEntError
  | InvalidReason (r : RecaptchaInvalidReason) : RecaptchaEntError
  | UnknownReason : RecaptchaEntError
  | ApiError (resp : RecaptchaEntApiResponse) : RecaptchaEntError
  | HttpError (e : TransportError) : RecaptchaEntError
  | DecodingError (e : DecodeErr) : RecaptchaEntError
deriving DecidableEq, Repr

/-- Embeds `impl TryFrom<String> for RecaptchaUserAction` of src/ent.rs
(hand-written match, distinct from the derived Deserialize). -/
def userActionTryFrom (value : String) :
    Except RecaptchaEntError RecaptchaUserAction :=
  if value = "signup" then .ok .Signup
  else if value = "login" then .ok .Login
  else if value = "password_reset" then .ok .PasswordReset
  else if value = "get_price" then .ok .GetPrice
  else if value = "cart_add" then .ok .CartAdd
  else if value = "cart_view" then .ok .CartView
  else if value = "payment_add" then .ok .PaymentAdd
  else if value = "checkout" then .ok .Checkout
  else if value = "transaction_confirmed" then .ok .TransactionConfirmed
  else if value = "play_song" then .ok .PlaySong
  else .error (.InvalidUserAction value)

/-- Embeds `impl TryFrom<String> for RecaptchaInvalidReason` of src/ent.rs:
unrecognized strings map to Err(UnknownReason).  This impl is not
invoked anywhere on the response-decoding path. -/
def invalidReasonTryFrom (value : String) :
    Except RecaptchaEntError RecaptchaInvalidReason :=
  if value = "AUTOMATION" then .ok .Automation
  else if value = "UNEXPECTED_ENVIRONMENT" then .ok .UnexpectedEnvironment
  else if value = "TOO_MUCH_TRAFFIC" then .ok .TooMuchTraffic
  else if value = "UNEXPECTED_USAGE_PATTERNS" then .ok .UnexpectedUsagePatterns
  else if value = "LOW_CONFIDENCE_SCORE" then .ok .LowConfidenceScore
  else if value = "MALFORMED" then .ok .Malformed
  else .error .UnknownReason

/-- Embeds `struct RecaptchaEntEvent` of src/ent.rs (camelCase wire keys;
extras is the serde flatten map, kept as the list of remaining
fields). -/
structure RecaptchaEntEvent where
  token : String
  site_key : String
  user_agent : String
  user_ip_address : String
  expected_action : Option RecaptchaUserAction
  extras : List (String × Json)

/-- Embeds `struct RecaptchaEntRiskAnalysis` of src/ent.rs.  The f32 score is
kept as the decoded JSON number; its value is never consumed by the
classification logic. -/
structure RecaptchaEntRiskAnalysis where
  score : Int
  challenge : String
  reasons : List String
  extras : List (String × Json)

/-- Embeds `struct RecaptchaEntTokenProps` of src/ent.rs. -/
structure RecaptchaEntTokenProps where
  valid : Bool
  invalid_reason : Option RecaptchaInvalidReason
  action : Option RecaptchaUserAction
  extras : List (String × Json)

/-- Embeds `struct RecaptchaEntResult` of src/ent.rs (no flatten map at the
top level: unknown top-level fields are ignored). -/
structure RecaptchaEntResult where
  name : String
  event : RecaptchaEntEvent
  risk_analysis : RecaptchaEntRiskAnalysis
  token_properties : RecaptchaEntTokenProps

/-- serde string decoding. -/
def decodeString : Json → Except DecodeErr String
  | .str s => .ok s
  | _ => .error (.invalidType "string")

/-- serde bool decoding. -/
def decodeBoolJson : Json → Except DecodeErr Bool
  | .bool b => .ok b
  | _ => .error (.invalidType "bool")

/-- serde u32 decoding (JSON integer in range). -/
def decodeU32 : Json → Except DecodeErr Nat
  | .num n => if 0 ≤ n ∧ n < 4294967296 then .ok n.toNat else .error (.invalidType "u32")
  | _ => .error (.invalidType "u32")

/-- serde f32 decoding (any JSON number; see the module comment on the
integer model of JSON numbers). -/
def decodeF32 : Json → Except DecodeErr Int
  | .num n => .ok n
  | _ => .error (.invalidType "f32")

/-- serde Vec of String decoding. -/
def decodeStringListE : Json → Except DecodeErr (List String)
  | .arr xs =>
    match decodeStringList xs with
    | some l => .ok l
    | none => .error (.invalidType "string")
  | _ => .error (.invalidType "sequence")

/-- serde decoding of a RecaptchaUserAction occurrence in a response. -/
def decodeUserAction : Json → Except DecodeErr RecaptchaUserAction
  | .str s =>
    match userActionFromWire s with
    | some a => .ok a
    | none => .error (.unknownVariant s)
  | _ => .error (.invalidType "variant identifier")

/-- serde decoding of a RecaptchaInvalidReason occurrence in a
response: an unrecognized string is an unknown-variant decode error,
failing the enclosing struct. -/
def decodeInvalidReason : Json → Except DecodeErr RecaptchaInvalidReason
  | .str s =>
    match invalidReasonFromWire s with
    | some r => .ok r
    | none => .error (.unknownVariant s)
  | _ => .error (.invalidType "variant identifier")

/-- A required serde struct field: duplicate occurrences are an error,
absence is a missing-field error, otherwise the value decodes with d. -/
def reqField {α : Type} (fs : List (String × Json)) (k : String)
    (d : Json → Except DecodeErr α) : Except DecodeErr α :=
  if keyCount fs k ≤ 1 then
    match fs.lookup k with
    | none => .error (.missingField k)
    | some v => d v
  else .error (.duplicateField k)

/-- An Option serde struct field: absence or null decodes to none. -/
def optField {α : Type} (fs : List (String × Json)) (k : String)
    (d : Json → Except DecodeErr α) : Except DecodeErr (Option α) :=
  if keyCount fs k ≤ 1 then
    match fs.lookup k with
    | none => .ok none
    | some .null => .ok none
    | some v => (d v).map some
  else .error (.duplicateField k)

/-- The fields a serde flatten map receives: those not named by the
struct. -/
def extraFields (fs : List (String × Json)) (known : List String) :
    List (String × Json) :=
  fs.filter (fun p => !(known.contains p.1))

/-- serde_json deserialization of RecaptchaEntApiError. -/
def decodeApiError : Json → Except DecodeErr RecaptchaEntApiError
  | .obj fs => do
    let code ← reqField fs "code" decodeU32
    let message ← reqField fs "message" decodeString
    let status ← reqField fs "status" decodeString
    .ok ⟨code, message, status⟩
  | _ => .error (.invalidType "map")

/-- serde_json deserialization of RecaptchaEntApiResponse (the
envelope with the single required camelCase field error). -/
def decodeApiResponse : Json → Except DecodeErr RecaptchaEntApiResponse
  | .obj fs => do
    let e ← reqField fs "error" decodeApiError
    .ok ⟨e⟩
  | _ => .error (.invalidType "map")

/-- serde_json deserialization of RecaptchaEntEvent (camelCase keys,
flatten extras). -/
def decodeEvent : Json → Except DecodeErr RecaptchaEntEvent
  | .obj fs => do
    let token ← reqField fs "token" decodeString
    let siteKey ← reqField fs "siteKey" decodeString
    let userAgent ← reqField fs "userAgent" decodeString
    let userIp ← reqField fs "userIpAddress" decodeString
    let expAction ← optField fs "expectedAction" decodeUserAction
    .ok ⟨token, siteKey, userAgent, userIp, expAction,
      extraFields fs ["token", "siteKey", "userAgent", "userIpAddress", "expectedAction"]⟩
  | _ => .error (.invalidType "map")

/-- serde_json deserialization of RecaptchaEntRiskAnalysis. -/
def decodeRiskAnalysis : Json → Except DecodeErr RecaptchaEntRiskAnalysis
  | .obj fs => do
    let score ← reqField fs "score" decodeF32
    let challenge ← reqField fs "challenge" decodeString
    let reasons ← reqField fs "reasons" decodeStringListE
    .ok ⟨score, challenge, reasons, extraFields fs ["score", "challenge", "reasons"]⟩
  | _ => .error (.invalidType "map")

/-- serde_json deserialization of RecaptchaEntTokenProps:
invalidReason and action are Option enum fields, so an unrecognized
variant string fails the whole struct. -/
def decodeTokenProps : Json → Except DecodeErr RecaptchaEntTokenProps
  | .obj fs => do
    let valid ← reqField fs "valid" decodeBoolJson
    let invalidReason ← optField fs "invalidReason" decodeInvalidReason
    let action ← optField fs "action" decodeUserAction
    .ok ⟨valid, invalidReason, action,
      extraFields fs ["valid", "invalidReason", "action"]⟩
  | _ => .error (.invalidType "map")

/-- serde_json deserialization of RecaptchaEntResult (all four fields
required; unknown top-level fields ignored). -/
def decodeEntResult : Json → Except DecodeErr RecaptchaEntResult
  | .obj fs => do
    let name ← reqField fs "name" decodeString
    let event ← reqField fs "event" decodeEvent
    let riskAnalysis ← reqField fs "riskAnalysis" decodeRiskAnalysis
    let tokenProps ← reqField fs "tokenProperties" decodeTokenProps
    .ok ⟨name, event, riskAnalysis, tokenProps⟩
  | _ => .error (.invalidType "map")

/-- serde_json::from_str::<RecaptchaEntResult>(&response_body). -/
def fromStrEntResult : Body → Except DecodeErr RecaptchaEntResult
  | .json j => decodeEntResult j
  | .malformed _ => .error .parseFailure

/-- serde_json::from_str::<RecaptchaEntApiResponse>(&response_body). -/
def fromStrApiResponse : Body → Except DecodeErr RecaptchaEntApiResponse
  | .json j => decodeApiResponse j
  | .malformed _ => .error .parseFailure

/-- Embeds `verify_enterprise_detailed` of src/ent.rs, from the transport
result on: transport failure maps to HttpError; otherwise decode the
body as RecaptchaEntResult, discarding the error on failure
(`Err(_)`), then as RecaptchaEntApiResponse, whose decode failure e2
surfaces as Err(DecodingError(e2)) and whose success surfaces as
Err(ApiError(..)). -/
def verify_enterprise_detailed (sendResult : Except TransportError HttpResponse) :
    Except RecaptchaEntError RecaptchaEntResult :=
  match sendResult with
  | .error e => .error (.HttpError e)
  | .ok response =>
    match fromStrEntResult response.body with
    | .ok result => .ok result
    | .error _ =>
      match fromStrApiResponse response.body with
      | .ok errResponse => .error (.ApiError errResponse)
      | .error e2 => .error (.DecodingError e2)

/-- Embeds `verify_enterprise` of src/ent.rs: delegates to
verify_enterprise_detailed (the ? operator propagating its Err), then
classifies the decoded assessment by tokenProperties. -/
def verify_enterprise (sendResult : Except TransportError HttpResponse) :
    Except RecaptchaEntError Unit :=
  match verify_enterprise_detailed sendResult with
  | .error e => .error e
  | .ok result =>
    if result.token_properties.valid then .ok ()
    else
      match result.token_properties.invalid_reason with
      | some reason => .error (.InvalidReason reason)
      | none => .error .UnknownReason

end Ent

/-! ## Concrete fixtures used by witnesses and counterexamples -/

/-- The closed legacy error-code vocabulary of the TryFrom impls. -/
def legacyCodes : List String :=
  ["missing-input-secret", "invalid-input-secret", "missing-input-response",
   "invalid-input-response", "bad-request", "timeout-or-duplicate"]

/-- The closed enterprise invalid-reason wire vocabulary. -/
def entReasonCodes : List String :=
  ["AUTOMATION", "UNEXPECTED_ENVIRONMENT", "TOO_MUCH_TRAFFIC",
   "UNEXPECTED_USAGE_PATTERNS", "LOW_CONFIDENCE_SCORE", "MALFORMED"]

/-- A legacy response body with success true and a populated
error-codes list. -/
def legacySuccessWithCodes : Json :=
  .obj [("success", .bool true), ("error-codes", .arr [.str "invalid-input-secret"])]

/-- A legacy response body with success false and an unrecognized
first error code followed by a recognized one. -/
def legacyUnknownFirst : Json :=
  .obj [("success", .bool false),
        ("error-codes", .arr [.str "trololo-detected", .str "bad-request"])]

/-- An enterprise event object with every required camelCase field. -/
def entEventJson : Json :=
  .obj [("token", .str "tok"), ("siteKey", .str "sk"), ("userAgent", .str "ua"),
        ("userIpAddress", .str "1.2.3.4"), ("expectedAction", .str "login")]

/-- A full enterprise assessment body, valid except that the token was
judged invalid with the given invalidReason value. -/
def entAssessmentBody (reason : Json) : Json :=
  .obj [("name", .str "projects/p/assessments/1"),
        ("event", entEventJson),
        ("riskAnalysis", .obj [("score", .num 0), ("challenge", .str "NOSPEC"),
                               ("reasons", .arr [])]),
        ("tokenProperties", .obj [("valid", .bool false), ("invalidReason", reason)])]

/-- The decoded form of entAssessmentBody with reason AUTOMATION. -/
def entAssessmentDecoded : Ent.RecaptchaEntResult :=
  ⟨"projects/p/assessments/1",
   ⟨"tok", "sk", "ua", "1.2.3.4", some .Login, []⟩,
   ⟨0, "NOSPEC", [], []⟩,
   ⟨false, some .Automation, none, []⟩⟩

/-- The documented API-error envelope for a bad API key. -/
def entErrorEnvelope : Json :=
  .obj [("error", .obj [("code", .num 403), ("message", .str "API key not valid"),
                        ("status", .str "PERMISSION_DENIED")])]

/-- A JSON body that matches neither enterprise schema. -/
def entOpaqueBodyA : Body := .json (.obj [("a", .num 7)])

/-- A second, different JSON body that matches neither enterprise
schema and fails both decodes in exactly the same way. -/
def entOpaqueBodyB : Body := .json (.obj [("b", .num 8)])

/-- A legacy body on which the two legacy revisions disagree: the
src/v3.rs struct ignores challenge_ts as an unknown field, while the
src/lib.rs struct deserializes it as Option String and fails on the
number. -/
def legacyDivergentBody : Body :=
  .json (.obj [("success", .bool true), ("challenge_ts", .num 5)])

/-- The fields of the src/lib.rs legacy result that the src/v3.rs
revision also deserializes. -/
def libToV3Result (r : Lib.RecaptchaResult) : V3.RecaptchaResult :=
  ⟨r.success, r.error_codes⟩

/-- A JSON object field is benign for the src/lib.rs decoder when it
occurs at most once and holds a string or null if it occurs, so that
its deserialization as an Option String cannot fail. -/
def benignOptStrField (fs : List (String × Json)) (k : String) : Bool :=
  (Lib.decodeOptStringField fs k).isSome

/-- A body on which the extra interpreted fields of the src/lib.rs
struct cannot fail: the domain on which the two legacy revisions are
compared. -/
def libCompatible : Body → Bool
  | .json (.obj fs) =>
    benignOptStrField fs "challenge_ts" && benignOptStrField fs "hostname" &&
      benignOptStrField fs "apk_package_name"
  | _ => true

/-- libCompatible lifted to a transport result. -/
def libCompatibleSend : Except TransportError HttpResponse → Bool
  | .error _ => true
  | .ok resp => libCompatible resp.body

/-! ## Theorems -/

/-- C3: for every successfully decoded enterprise assessment,
verify_enterprise classifies it as: tokenProperties.valid true yields
Ok (regardless of any populated invalidReason, since the valid branch
is taken first); otherwise a present invalidReason yields
Err(InvalidReason reason) carrying that reason; otherwise
Err(UnknownReason). -/
theorem claim_C3_enterprise_classification
    (sendResult : Except TransportError HttpResponse) (r : Ent.RecaptchaEntResult)
    (hdec : Ent.verify_enterprise_detailed sendResult = .ok r) :
    Ent.verify_enterprise sendResult =
      (if r.token_properties.valid then .ok ()
       else
         match r.token_properties.invalid_reason with
         | some reason => .error (.InvalidReason reason)
         | none => .error .UnknownReason) := by
  unfold Ent.verify_enterprise
  rw [hdec]

/-- C3 witness: a concrete assessment body decoding to an invalid
token with reason AUTOMATION is classified Err(InvalidReason
Automation). -/
theorem claim_C3_witness :
    Ent.verify_enterprise (.ok ⟨200, .json (entAssessmentBody (.str "AUTOMATION"))⟩)
      = .error (.InvalidReason .Automation) := by
  have h := claim_C3_enterprise_classification
    (.ok ⟨200, .json (entAssessmentBody (.str "AUTOMATION"))⟩)
    entAssessmentDecoded rfl
  exact h

/-- C4: a legacy response body whose success field decodes to true is
classified Ok by verify_v3 (and its verify alias), regardless of the
decoded error-codes list. -/
theorem claim_C4_success_short_circuits
    (st : Nat) (j : Json) (r : V3.RecaptchaResult)
    (hdec : V3.decodeRecaptchaResult j = some r)
    (hsucc : r.success = true) :
    V3.verify_v3 (.ok ⟨st, .json j⟩) = .ok () ∧
    V3.verify (.ok ⟨st, .json j⟩) = .ok () := by
  have h : V3.verify_v3 (.ok ⟨st, .json j⟩) = .ok () := by
    simp [V3.verify_v3, V3.decodeBody, hdec, hsucc]
  exact ⟨h, h⟩

/-- C4 witness: the spec example, success true next to a populated
error-codes list, is classified Ok. -/
theorem claim_C4_witness :
    V3.verify_v3 (.ok ⟨200, .json legacySuccessWithCodes⟩) = .ok () ∧
    V3.verify (.ok ⟨200, .json legacySuccessWithCodes⟩) = .ok () :=
  claim_C4_success_short_circuits 200 legacySuccessWithCodes
    ⟨true, some ["invalid-input-secret"]⟩ rfl rfl

/-- C7: a response body that fails the assessment decode but decodes
as the API-error envelope is classified Err(ApiError env), carrying
exactly the decoded code, message and status. -/
theorem claim_C7_protocol_error
    (st : Nat) (b : Body) (e1 : Ent.DecodeErr) (env : Ent.RecaptchaEntApiResponse)
    (h1 : Ent.fromStrEntResult b = .error e1)
    (h2 : Ent.fromStrApiResponse b = .ok env) :
    Ent.verify_enterprise_detailed (.ok ⟨st, b⟩) = .error (.ApiError env) := by
  simp [Ent.verify_enterprise_detailed, h1, h2]

/-- C7 witness: the documented 403 envelope decodes to
ApiError(403, API key not valid, PERMISSION_DENIED). -/
theorem claim_C7_witness :
    Ent.verify_enterprise_detailed (.ok ⟨403, .json entErrorEnvelope⟩)
      = .error (.ApiError ⟨⟨403, "API key not valid", "PERMISSION_DENIED"⟩⟩) :=
  claim_C7_protocol_error 403 (.json entErrorEnvelope)
    (.missingField "name") ⟨⟨403, "API key not valid", "PERMISSION_DENIED"⟩⟩ rfl rfl

/-- C8: round-trip laws of the closed enterprise vocabularies.  For
each of the ten RecaptchaUserAction variants, TryFrom of its Display
string yields Ok of the variant, the serde wire name decodes back to
the variant, and the wire name coincides with the Display string (so
decode-then-encode of a wire string is the identity).  For each of the
six RecaptchaInvalidReason variants, the serde wire name decodes back
to the variant, TryFrom of the Display string yields Ok of the
variant, and the wire name coincides with the Display string. -/
theorem claim_C8_roundtrip_laws :
    (∀ a : Ent.RecaptchaUserAction,
       Ent.userActionTryFrom (Ent.userActionToString a) = .ok a ∧
       Ent.userActionFromWire (Ent.userActionSerdeName a) = some a ∧
       Ent.userActionSerdeName a = Ent.userActionToString a) ∧
    (∀ r : Ent.RecaptchaInvalidReason,
       Ent.invalidReasonFromWire (Ent.invalidReasonSerdeName r) = some r ∧
       Ent.invalidReasonTryFrom (Ent.invalidReasonToString r) = .ok r ∧
       Ent.invalidReasonSerdeName r = Ent.invalidReasonToString r) := by
  constructor
  · intro a
    cases a <;> exact ⟨rfl, rfl, rfl⟩
  · intro r
    cases r <;> exact ⟨rfl, rfl, rfl⟩

/-- C9: the classification of a completed HTTP exchange is a function
of the body alone; the HTTP status code carried by the response is
never inspected, in the legacy flow (both revisions) and in the
enterprise flow (both entry points). -/
theorem claim_C9_status_independence (s1 s2 : Nat) (b : Body) :
    V3.verify_v3 (.ok ⟨s1, b⟩) = V3.verify_v3 (.ok ⟨s2, b⟩) ∧
    Lib.verify (.ok ⟨s1, b⟩) = Lib.verify (.ok ⟨s2, b⟩) ∧
    Ent.verify_enterprise_detailed (.ok ⟨s1, b⟩)
      = Ent.verify_enterprise_detailed (.ok ⟨s2, b⟩) ∧
    Ent.verify_enterprise (.ok ⟨s1, b⟩) = Ent.verify_enterprise (.ok ⟨s2, b⟩) :=
  ⟨rfl, rfl, rfl, rfl⟩

/-- The legacy code mapping never produces Unknown(None): every branch
is either a specific variant or Unknown(Some code). -/
theorem recaptchaErrorFromCode_ne_unknown_none (s : String) :
    V3.recaptchaErrorFromCode s ≠ .Unknown none := by
  unfold V3.recaptchaErrorFromCode
  repeat' split
  all_goals simp

/-- C5: for a legacy body decoding to success false with a nonempty
error-codes list, verify_v3 maps only the first element s (the
conclusion does not mention the universally quantified tail, so later
elements never influence the outcome); the mapping sends each of the
six recognized code strings to its variant and any unrecognized code
c to Unknown(Some c), preserving c exactly. -/
theorem claim_C5_first_code_only
    (st : Nat) (j : Json) (s : String) (rest : List String) (c : String)
    (hdec : V3.decodeRecaptchaResult j = some ⟨false, some (s :: rest)⟩)
    (hc : c ∉ legacyCodes) :
    V3.verify_v3 (.ok ⟨st, .json j⟩) = .error (V3.recaptchaErrorFromCode s) ∧
    V3.recaptchaErrorFromCode "missing-input-secret" = .MissingInputSecret ∧
    V3.recaptchaErrorFromCode "invalid-input-secret" = .InvalidInputSecret ∧
    V3.recaptchaErrorFromCode "missing-input-response" = .MissingInputResponse ∧
    V3.recaptchaErrorFromCode "invalid-input-response" = .InvalidInputResponse ∧
    V3.recaptchaErrorFromCode "bad-request" = .BadRequest ∧
    V3.recaptchaErrorFromCode "timeout-or-duplicate" = .TimeoutOrDuplicate ∧
    V3.recaptchaErrorFromCode c = .Unknown (some c) := by
  have hc' : ¬(c = "missing-input-secret") ∧ ¬(c = "invalid-input-secret") ∧
      ¬(c = "missing-input-response") ∧ ¬(c = "invalid-input-response") ∧
      ¬(c = "bad-request") ∧ ¬(c = "timeout-or-duplicate") := by
    simpa [legacyCodes, not_or] using hc
  obtain ⟨h1, h2, h3, h4, h5, h6⟩ := hc'
  refine ⟨?_, rfl, rfl, rfl, rfl, rfl, rfl, ?_⟩
  · simp [V3.verify_v3, V3.decodeBody, hdec, V3.recaptchaErrorTryFrom]
  · simp [V3.recaptchaErrorFromCode, h1, h2, h3, h4, h5, h6]

/-- C5 witness: an unrecognized first code maps to Unknown of that
exact string, even with a recognized code behind it, and bad-request
maps to its variant. -/
theorem claim_C5_witness :
    V3.verify_v3 (.ok ⟨200, .json legacyUnknownFirst⟩)
      = .error (.Unknown (some "trololo-detected")) ∧
    V3.recaptchaErrorFromCode "bad-request" = .BadRequest := by
  have h := claim_C5_first_code_only 200 legacyUnknownFirst "trololo-detected"
    ["bad-request"] "trololo-detected" rfl (by decide)
  exact ⟨h.1, h.2.2.2.2.2.1⟩

/-- C6: verify_v3 produces Err(Unknown(None)) on a delivered response
exactly when the body fails to decode, or decodes to success false
with no error-codes field, or decodes to success false with an empty
error-codes list; decode failure is not distinguished from the other
two cases. -/
theorem claim_C6_unknown_none_cases (st : Nat) (b : Body) :
    V3.verify_v3 (.ok ⟨st, b⟩) = .error (.Unknown none) ↔
      (V3.decodeBody b = none ∨
       V3.decodeBody b = some ⟨false, none⟩ ∨
       V3.decodeBody b = some ⟨false, some []⟩) := by
  cases hd : V3.decodeBody b with
  | none => simp [V3.verify_v3, hd]
  | some r =>
    obtain ⟨s, ec⟩ := r
    cases s
    · cases ec with
      | none => simp [V3.verify_v3, hd]
      | some l =>
        cases l with
        | nil => simp [V3.verify_v3, hd]
        | cons x xs =>
          simp [V3.verify_v3, hd, V3.recaptchaErrorTryFrom,
            recaptchaErrorFromCode_ne_unknown_none x]
    · simp [V3.verify_v3, hd]

/-- C6 witness: a body that is not JSON at all is classified
Err(Unknown(None)). -/
theorem claim_C6_witness :
    V3.verify_v3 (.ok ⟨200, .malformed "oops not json"⟩) = .error (.Unknown none) :=
  (claim_C6_unknown_none_cases 200 (.malformed "oops not json")).mpr (Or.inl rfl)

/-- C1 counterexample: two different raw bodies, each decoding as
neither the assessment shape nor the error envelope, are classified
identically, so the outcome cannot carry the original raw body
byte-for-byte; moreover the outcome is Err(DecodingError e2) carrying
only the failure of the second (envelope) decode, missing field
error, while the failure of the first (assessment) decode, missing
field name, is discarded, so the outcome does not carry both decode
failure descriptions.  No UnparseableResponse-like variant carrying a
body exists in the error enum of src/ent.rs. -/
theorem claim_C1_counterexample :
    Ent.fromStrEntResult entOpaqueBodyA = .error (.missingField "name") ∧
    Ent.fromStrApiResponse entOpaqueBodyA = .error (.missingField "error") ∧
    Ent.fromStrEntResult entOpaqueBodyB = .error (.missingField "name") ∧
    Ent.fromStrApiResponse entOpaqueBodyB = .error (.missingField "error") ∧
    Ent.verify_enterprise_detailed (.ok ⟨200, entOpaqueBodyA⟩)
      = .error (.DecodingError (.missingField "error")) ∧
    Ent.verify_enterprise_detailed (.ok ⟨200, entOpaqueBodyA⟩)
      = Ent.verify_enterprise_detailed (.ok ⟨200, entOpaqueBodyB⟩) ∧
    entOpaqueBodyA ≠ entOpaqueBodyB := by
  refine ⟨rfl, rfl, rfl, rfl, rfl, rfl, ?_⟩
  simp [entOpaqueBodyA, entOpaqueBodyB]

/-- C1 amended: when both decodes fail, verify_enterprise_detailed
returns Err(DecodingError e2), where e2 is the failure of the second
(envelope) decode only; the outcome is distinct from success and from
every other error variant, but it carries neither the raw body nor
the first decode failure. -/
theorem claim_C1_amended_double_decode_failure
    (st : Nat) (b : Body) (e1 e2 : Ent.DecodeErr)
    (h1 : Ent.fromStrEntResult b = .error e1)
    (h2 : Ent.fromStrApiResponse b = .error e2) :
    Ent.verify_enterprise_detailed (.ok ⟨st, b⟩) = .error (.DecodingError e2) := by
  simp [Ent.verify_enterprise_detailed, h1, h2]

/-- C1 amended witness: a non-JSON body fails both decodes as a parse
failure and is classified Err(DecodingError(parseFailure)). -/
theorem claim_C1_witness :
    Ent.verify_enterprise_detailed (.ok ⟨502, .malformed "bad gateway"⟩)
      = .error (.DecodingError .parseFailure) :=
  claim_C1_amended_double_decode_failure 502 (.malformed "bad gateway")
    .parseFailure .parseFailure rfl rfl

/-- C2 counterexample: an otherwise fully valid assessment body whose
tokenProperties.invalidReason is the unrecognized string FAKE_REASON
does not produce the unknown-reason outcome Err(UnknownReason): the
unrecognized string fails the decode of the whole assessment (unknown
variant), and the flow ends in Err(DecodingError(missing field
error)). -/
theorem claim_C2_counterexample :
    Ent.fromStrEntResult (.json (entAssessmentBody (.str "FAKE_REASON")))
      = .error (.unknownVariant "FAKE_REASON") ∧
    Ent.verify_enterprise (.ok ⟨200, .json (entAssessmentBody (.str "FAKE_REASON"))⟩)
      = .error (.DecodingError (.missingField "error")) ∧
    Ent.verify_enterprise (.ok ⟨200, .json (entAssessmentBody (.str "FAKE_REASON"))⟩)
      ≠ .error .UnknownReason :=
  ⟨rfl, rfl, by decide⟩

/-- C2 amended: a tokenProperties.invalidReason string outside the
closed six-element reason set does not decode through the closed set;
it fails the decode of the whole assessment with an unknown-variant
error, and the flow returns Err(DecodingError(..)) (the envelope
decode also failing), not the unknown-reason outcome.  The hand
written TryFrom impl does collapse unrecognized strings to
Err(UnknownReason), but it is not invoked during response decoding. -/
theorem claim_C2_amended_unknown_reason_fails_decode
    (st : Nat) (s : String) (hs : s ∉ entReasonCodes) :
    Ent.invalidReasonFromWire s = none ∧
    Ent.fromStrEntResult (.json (entAssessmentBody (.str s)))
      = .error (.unknownVariant s) ∧
    Ent.verify_enterprise (.ok ⟨st, .json (entAssessmentBody (.str s))⟩)
      = .error (.DecodingError (.missingField "error")) ∧
    Ent.invalidReasonTryFrom s = .error .UnknownReason := by
  have hs' : ¬(s = "AUTOMATION") ∧ ¬(s = "UNEXPECTED_ENVIRONMENT") ∧
      ¬(s = "TOO_MUCH_TRAFFIC") ∧ ¬(s = "UNEXPECTED_USAGE_PATTERNS") ∧
      ¬(s = "LOW_CONFIDENCE_SCORE") ∧ ¬(s = "MALFORMED") := by
    simpa [entReasonCodes, not_or] using hs
  obtain ⟨h1, h2, h3, h4, h5, h6⟩ := hs'
  have hwire : Ent.invalidReasonFromWire s = none := by
    simp [Ent.invalidReasonFromWire, h1, h2, h3, h4, h5, h6]
  have hir : Ent.decodeInvalidReason (.str s) = .error (.unknownVariant s) := by
    simp [Ent.decodeInvalidReason, hwire]
  have htp : Ent.decodeTokenProps (.obj [("valid", .bool false), ("invalidReason", .str s)])
      = .error (.unknownVariant s) := by
    have hshape : Ent.decodeTokenProps
        (.obj [("valid", .bool false), ("invalidReason", .str s)])
        = Except.bind ((Ent.decodeInvalidReason (.str s)).map some)
            (fun ir => .ok ⟨false, ir, none, []⟩) := rfl
    rw [hshape, hir]
    rfl
  have hdec : Ent.fromStrEntResult (.json (entAssessmentBody (.str s)))
      = .error (.unknownVariant s) := by
    have hshape : Ent.fromStrEntResult (.json (entAssessmentBody (.str s)))
        = Except.bind
            (Ent.decodeTokenProps (.obj [("valid", .bool false), ("invalidReason", .str s)]))
            (fun tp => .ok ⟨"projects/p/assessments/1",
               ⟨"tok", "sk", "ua", "1.2.3.4", some .Login, []⟩,
               ⟨0, "NOSPEC", [], []⟩, tp⟩) := rfl
    rw [hshape, htp]
    rfl
  have henv : Ent.fromStrApiResponse (.json (entAssessmentBody (.str s)))
      = .error (.missingField "error") := rfl
  have hdet : Ent.verify_enterprise_detailed
      (.ok ⟨st, .json (entAssessmentBody (.str s))⟩)
      = .error (.DecodingError (.missingField "error")) := by
    simp [Ent.verify_enterprise_detailed, hdec, henv]
  refine ⟨hwire, hdec, ?_, ?_⟩
  · simp [Ent.verify_enterprise, hdet]
  · simp [Ent.invalidReasonTryFrom, h1, h2, h3, h4, h5, h6]

/-- C2 amended witness: the unrecognized reason SOME_NEW_REASON fails
the assessment decode and yields Err(DecodingError(..)), while the
unused TryFrom collapses it to Err(UnknownReason). -/
theorem claim_C2_witness :
    Ent.invalidReasonFromWire "SOME_NEW_REASON" = none ∧
    Ent.fromStrEntResult (.json (entAssessmentBody (.str "SOME_NEW_REASON")))
      = .error (.unknownVariant "SOME_NEW_REASON") ∧
    Ent.verify_enterprise
        (.ok ⟨200, .json (entAssessmentBody (.str "SOME_NEW_REASON"))⟩)
      = .error (.DecodingError (.missingField "error")) ∧
    Ent.invalidReasonTryFrom "SOME_NEW_REASON" = .error .UnknownReason :=
  claim_C2_amended_unknown_reason_fails_decode 200 "SOME_NEW_REASON" (by decide)

/-- On bodies where the three extra interpreted fields of the
src/lib.rs struct are benign, the two legacy decoders agree up to
projection on the shared fields. -/
theorem lib_v3_decode_agree (b : Body) (h : libCompatible b = true) :
    (Lib.decodeBody b).map libToV3Result = V3.decodeBody b := by
  cases b with
  | malformed raw => rfl
  | json j =>
    cases j with
    | null => rfl
    | bool x => rfl
    | num n => rfl
    | str s => rfl
    | arr xs => rfl
    | obj fs =>
      have h' : ((Lib.decodeOptStringField fs "challenge_ts").isSome = true ∧
          (Lib.decodeOptStringField fs "hostname").isSome = true) ∧
          (Lib.decodeOptStringField fs "apk_package_name").isSome = true := by
        simpa [libCompatible, benignOptStrField, Bool.and_eq_true] using h
      obtain ⟨⟨hct, hhn⟩, hapk⟩ := h'
      obtain ⟨ct, hct⟩ := Option.isSome_iff_exists.mp hct
      obtain ⟨hn, hhn⟩ := Option.isSome_iff_exists.mp hhn
      obtain ⟨apk, hapk⟩ := Option.isSome_iff_exists.mp hapk
      simp only [Lib.decodeBody, V3.decodeBody, Lib.decodeRecaptchaResult,
        V3.decodeRecaptchaResult]
      by_cases hcond : keyCount fs "success" ≤ 1 ∧ keyCount fs "error-codes" ≤ 1
      · simp only [if_pos hcond]
        cases hs : fs.lookup "success" with
        | none => rfl
        | some v =>
          cases v with
          | bool s =>
            simp only [hct, hhn, hapk, Option.bind_some]
            cases he : fs.lookup "error-codes" with
            | none => simp [libToV3Result]
            | some w =>
              cases w with
              | null => simp [libToV3Result]
              | bool x => simp
              | num n => simp
              | str t => simp
              | obj gs => simp
              | arr xs =>
                cases hl : decodeStringList xs with
                | none => simp [hl]
                | some l => simp [hl, libToV3Result]
          | null => rfl
          | num n => rfl
          | str t => rfl
          | arr xs => rfl
          | obj gs => rfl
      · simp only [if_neg hcond]
        rfl

/-- C10 counterexample: on the body success true with challenge_ts 5
(a JSON number), verify_v3 of src/v3.rs returns Ok while verify of
src/lib.rs fails its decode and returns Err(Unknown(None)): the two
coexisting legacy revisions are not behaviorally equivalent on every
transport result. -/
theorem claim_C10_counterexample :
    V3.verify_v3 (.ok ⟨200, legacyDivergentBody⟩) = .ok () ∧
    Lib.verify (.ok ⟨200, legacyDivergentBody⟩) = .error (.Unknown none) ∧
    Lib.verify (.ok ⟨200, legacyDivergentBody⟩)
      ≠ V3.verify_v3 (.ok ⟨200, legacyDivergentBody⟩) :=
  ⟨rfl, rfl, by decide⟩

/-- C10 amended: the two legacy revisions coincide on every transport
result whose body carries the three extra interpreted fields of the
src/lib.rs struct (challenge_ts, hostname, apk_package_name) at most
once and only as string or null when present; and the two TryFrom
impls map every code string identically, including the
Unknown(Some(..)) escape. -/
theorem claim_C10_amended_equivalence_on_benign_bodies
    (tr : Except TransportError HttpResponse) (s : String)
    (h : libCompatibleSend tr = true) :
    Lib.verify tr = V3.verify_v3 tr ∧
    Lib.recaptchaErrorFromCode s = V3.recaptchaErrorFromCode s := by
  refine ⟨?_, rfl⟩
  cases tr with
  | error e => rfl
  | ok resp =>
    have hag := lib_v3_decode_agree resp.body (by simpa [libCompatibleSend] using h)
    simp only [Lib.verify, V3.verify_v3]
    cases hl : Lib.decodeBody resp.body with
    | none =>
      have hv : V3.decodeBody resp.body = none := by rw [← hag, hl]; rfl
      simp [hl, hv]
    | some r =>
      have hv : V3.decodeBody resp.body = some ⟨r.success, r.error_codes⟩ := by
        rw [← hag, hl]; rfl
      have hfc : ∀ x, Lib.recaptchaErrorFromCode x = V3.recaptchaErrorFromCode x :=
        fun x => rfl
      simp only [hl, hv]
      cases r.success
      · cases hec : r.error_codes with
        | none => simp
        | some errs =>
          cases errs with
          | nil => simp
          | cons x xs =>
            simp [Lib.recaptchaErrorTryFrom, V3.recaptchaErrorTryFrom, hfc]
      · simp

/-- C10 amended witness: on a benign body with an unrecognized first
code both revisions produce the identical Unknown(Some(..)) outcome. -/
theorem claim_C10_witness :
    Lib.verify (.ok ⟨200, .json legacyUnknownFirst⟩)
      = V3.verify_v3 (.ok ⟨200, .json legacyUnknownFirst⟩) ∧
    Lib.recaptchaErrorFromCode "trololo-detected"
      = V3.recaptchaErrorFromCode "trololo-detected" :=
  claim_C10_amended_equivalence_on_benign_bodies
    (.ok ⟨200, .json legacyUnknownFirst⟩) "trololo-detected" rfl

end Recaptcha
